import Mathlib

/-!
Verification development for a single-endpoint Flask service (`main.py`)
that validates a crop-disease report, asks a generative-AI model for a
pesticide recommendation, derives a weekly treatment schedule, renders an
HTML email, and returns a JSON response.

Shallow embedding conventions:
* Python values are modelled by the inductive `PyVal` (None, bool, int,
  str, list, dict-as-association-list).  JSON floats that the service
  never computes with are out of the model's scope.
* Python exceptions are modelled by `Except String`; the carried string
  stands for `str(e)`.  Exception message texts for built-in errors
  (TypeError, AttributeError, KeyError) are abbreviated, since the
  program never inspects them; they only flow into the generic
  `except Exception` handler.
* Standard-library behaviour that the program calls but does not define
  (`float(x)` success, `json.loads`, `str(...)` for container reprs,
  `date.isoformat`, the two network collaborators) is abstracted into
  the `Env` record; `datetime.utcnow().date()` is modelled as a day
  ordinal `today : Nat`, and `timedelta(days = k)` as `+ k` on that
  ordinal, which is exactly CPython's date arithmetic.
* HTTP responses are modelled by `Outcome`: `Outcome.ok` is the 200
  success body `{status: success, pesticides, treatment_schedules,
  email_response}`, `Outcome.fail code err` is `jsonify({"status":
  "fail", "error": err}), code`, and `Outcome.unhandled` marks an
  exception escaping the handler outside any try block (never reached
  on the inputs the theorems below are about).
* The `OPTIONS` pre-flight branch of the route (CORS plumbing returning
  200 before anything else) is outside the model: `recommend` models the
  POST path.
-/

/-- Python values, as they occur in request bodies and parsed JSON.
    Dicts are association lists keyed by strings (the only keys this
    program ever uses); lookup takes the first binding. -/
inductive PyVal where
  | vnone  : PyVal
  | vbool  : Bool → PyVal
  | vint   : Int → PyVal
  | vstr   : String → PyVal
  | vlist  : List PyVal → PyVal
  | vdict  : List (String × PyVal) → PyVal

open PyVal

/-- Dictionary lookup: first binding for the key, if any. -/
def dictGet (kvs : List (String × PyVal)) (k : String) : Option PyVal :=
  (kvs.find? (fun kv => kv.1 = k)).map (fun kv => kv.2)

/-- Python truthiness (`bool(v)`), used by `if not data:` and `x or y`. -/
def pyFalsy : PyVal → Bool
  | vnone => true
  | vbool b => !b
  | vint n => n = 0
  | vstr s => s.isEmpty
  | vlist xs => xs.isEmpty
  | vdict kvs => kvs.isEmpty

/-- `repr(v)`: used by `str` on containers.  String quoting is
    approximated without escape handling; no theorem depends on it. -/
def pyRepr : PyVal → String
  | vnone => "None"
  | vbool true => "True"
  | vbool false => "False"
  | vint n => toString n
  | vstr s => "\x27" ++ s ++ "\x27"
  | vlist xs => "[" ++ String.intercalate ", " (xs.attach.map (fun x => pyRepr x.1)) ++ "]"
  | vdict kvs =>
      "\x7b" ++
      String.intercalate ", "
        (kvs.attach.map (fun kv => "\x27" ++ kv.1.1 ++ "\x27: " ++ pyRepr kv.1.2)) ++
      "\x7d"
decreasing_by
  · have h := List.sizeOf_lt_of_mem x.2
    simp only [PyVal.vlist.sizeOf_spec]
    omega
  · have h1 : sizeOf kv.1 < sizeOf kvs := List.sizeOf_lt_of_mem kv.2
    have h2 : sizeOf kv.1.2 < sizeOf kv.1 := by
      obtain ⟨⟨a, b⟩, hm⟩ := kv
      simp only [Prod.mk.sizeOf_spec]
      omega
    simp only [PyVal.vdict.sizeOf_spec]
    omega

/-- `str(v)` as used by f-string interpolation. -/
def pyStr : PyVal → String
  | vstr s => s
  | v => pyRepr v

/-- `k in v` / `k not in v` for a string key: key membership for dicts,
    element equality for lists (a str compares equal only to an equal
    str), substring search for strings; TypeError otherwise. -/
def subOccurs (pat : List Char) : List Char → Bool
  | [] => pat.isEmpty
  | c :: t => pat.isPrefixOf (c :: t) || subOccurs pat t

def pyContains (k : String) : PyVal → Except String Bool
  | vdict kvs => .ok (dictGet kvs k).isSome
  | vlist xs => .ok (xs.any (fun v => match v with | vstr s => s = k | _ => false))
  | vstr s => .ok (subOccurs k.data s.data)
  | _ => .error "TypeError: argument is not iterable"

/-- `v[k]` for a string key `k`. -/
def pySubscript : PyVal → String → Except String PyVal
  | vdict kvs, k =>
      match dictGet kvs k with
      | some v => .ok v
      | none => .error ("KeyError: " ++ k)
  | vlist _, _ => .error "TypeError: list indices must be integers"
  | vstr _, _ => .error "TypeError: string indices must be integers"
  | _, _ => .error "TypeError: object is not subscriptable"

/-- `v.get(k, d)`: defaulted lookup on dicts, AttributeError otherwise. -/
def pyGetDefault : PyVal → String → PyVal → Except String PyVal
  | vdict kvs, k, d => .ok ((dictGet kvs k).getD d)
  | _, _, _ => .error "AttributeError: object has no attribute get"

/-- `for x in v`: the sequence of items iteration yields, or TypeError.
    Lists yield their elements, strings their characters, dicts their
    keys; everything else raises. -/
def pyIterate : PyVal → Except String (List PyVal)
  | vlist xs => .ok xs
  | vstr s => .ok (s.data.map (fun c => vstr (String.mk [c])))
  | vdict kvs => .ok (kvs.map (fun kv => vstr kv.1))
  | _ => .error "TypeError: object is not iterable"

/-- `text.find(c)`: index of the first occurrence, `-1` if absent. -/
def pyFind (s : String) (c : Char) : Int :=
  match s.data.findIdx? (fun x => x = c) with
  | some i => (i : Int)
  | none => -1

/-- `text.rfind(c)`: index of the last occurrence, `-1` if absent. -/
def pyRfind (s : String) (c : Char) : Int :=
  match s.data.reverse.findIdx? (fun x => x = c) with
  | some i => (s.data.length - 1 - i : Int)
  | none => -1

/-- `s[a:b]` for `0 ≤ a, b` (the only case the program exercises). -/
def pySlice (s : String) (a b : Nat) : String :=
  String.mk ((s.data.take b).drop a)

/-- `text.strip()`.  `Char.isWhitespace` stands for Python's whitespace
    class; no theorem depends on the exact class. -/
def pyStrip (s : String) : String :=
  String.mk (((s.data.dropWhile Char.isWhitespace).reverse.dropWhile Char.isWhitespace).reverse)

/-- A derived schedule entry, as appended to `schedules`:
    `{"pesticide_name": pname, "scheduled_date": (today + 7*(idx-1) days)
    .isoformat(), "completed": False}`. -/
structure ScheduleEntry where
  pesticide_name : PyVal
  scheduled_date : String
  completed : Bool

/-- The HTTP outcome of a `/recommend` POST. -/
inductive Outcome where
  | ok (pesticides : List PyVal) (schedules : List ScheduleEntry) (emailResponse : PyVal)
  | fail (code : Nat) (error : PyVal)
  | unhandled (msg : String)

/-- Everything the program takes from its environment and from the
    Python runtime/stdlib: configuration values, the two external
    collaborators, and stdlib behaviour the program relies on. -/
structure Env where
  /-- `os.getenv("GOOGLE_API_KEY")`. -/
  googleKey : Option String
  /-- `os.getenv("RESEND_API_KEY")`. -/
  resendKey : Option String
  /-- `genai.GenerativeModel(MODEL_NAME).generate_content(prompt).text`:
      either raises, or yields `resp.text` (possibly `None`). -/
  modelGen : String → Except String (Option String)
  /-- `json.loads`: raises (with `str(e)`) or yields a value. -/
  jsonLoads : String → Except String PyVal
  /-- Whether `float(v)` succeeds. -/
  floatOk : PyVal → Bool
  /-- `datetime.utcnow().date()` as a day ordinal. -/
  today : Nat
  /-- `date.fromordinal(n).isoformat()`. -/
  iso : Nat → String
  /-- `resend.Emails.send(params)` for params built from
      (to, subject, html): raises or yields the provider payload. -/
  emailSend : PyVal → String → String → Except String PyVal

def requiredKeys : List String :=
  ["plant_name", "disease_percentage", "previous_fertilizers",
   "acres", "location", "predicted_class", "email"]

/-- The `[k for k in required if k not in data]` comprehension; an
    exception from `in` propagates (it is outside any try block). -/
def collectMissing (data : PyVal) : List String → Except String (List String)
  | [] => .ok []
  | k :: ks => do
      let b ← pyContains k data
      let rest ← collectMissing data ks
      .ok (if b then rest else k :: rest)

/-- `validate_payload(data)`: returns `(ok, err)`.  The numeric check
    runs under a bare `except:`, so a subscript failure there also
    yields the fixed "must be numbers" message. -/
def validate_payload (floatOk : PyVal → Bool) (data : PyVal) :
    Except String (Bool × Option String) := do
  let missing ← collectMissing data requiredKeys
  if missing.isEmpty then
    let ok :=
      match pySubscript data "disease_percentage" with
      | .error _ => false
      | .ok v1 =>
          floatOk v1 &&
          (match pySubscript data "acres" with
           | .error _ => false
           | .ok v2 => floatOk v2)
    if ok then
      .ok (true, Option.none)
    else
      .ok (false, some "disease_percentage and acres must be numbers.")
  else
    .ok (false, some ("Missing: " ++ String.intercalate ", " missing))

/-- `send_email(to_email, subject, html)`: never raises; a missing
    credential or a provider exception becomes a structured failure. -/
def send_email (env : Env) (to_email : PyVal) (subject html : String) : PyVal :=
  match env.resendKey with
  | Option.none =>
      vdict [("success", vbool false), ("error", vstr "Missing RESEND_API_KEY")]
  | some _ =>
      match env.emailSend to_email subject html with
      | .ok r => r
      | .error e => vdict [("success", vbool false), ("error", vstr e)]

def SYSTEM_INSTRUCTIONS : String :=
  "\nYou are an agronomy assistant. Suggest pesticide recommendations and treatment\nschedules based on crop, disease, severity, and field details.\nReturn strictly JSON only.\n"

/-- `make_prompt(payload)`: the f-string template; `payload[...]`
    subscripts may raise (caught by the route's try block). -/
def make_prompt (payload : PyVal) : Except String String := do
  let pn ← pySubscript payload "plant_name"
  let dp ← pySubscript payload "disease_percentage"
  let pf ←
    match payload with
    | vdict kvs => Except.ok ((dictGet kvs "previous_fertilizers").getD vnone)
    | _ => Except.error "AttributeError: object has no attribute get"
  let ac ← pySubscript payload "acres"
  let loc ← pySubscript payload "location"
  let pc ← pySubscript payload "predicted_class"
  let pfStr := if pyFalsy pf then "None" else pyStr pf
  .ok ("\nSYSTEM:\n" ++ SYSTEM_INSTRUCTIONS ++ "\n\nINPUT:\n- plant_name: " ++ pyStr pn ++
    "\n- disease_percentage: " ++ pyStr dp ++ " %\n- previous_fertilizers: " ++ pfStr ++
    "\n- acres: " ++ pyStr ac ++ "\n- location: " ++ pyStr loc ++
    "\n- predicted_class: " ++ pyStr pc ++
    "\n\nOUTPUT:\nProvide JSON strictly in this format:\n\x7b\n  \x22confidence\x22: 0.9,\n  \x22treatment_schedule\x22: [\n    \x7b\n      \x22product\x22: \x22Azoxystrobin + Difenoconazole\x22,\n      \x22timing\x22: \x22Day 0\x22,\n      \x22notes\x22: \x22Systemic fungicide\x22\n    \x7d,\n    \x7b\n      \x22product\x22: \x22Mancozeb\x22,\n      \x22timing\x22: \x22Day 7\x22,\n      \x22notes\x22: \x22Protectant fungicide\x22\n    \x7d\n  ]\n\x7d\n")

/-- Lines 131-135: `start, end = text.find("{"), text.rfind("}")`;
    `parsed = {}`; `if start != -1 and end != -1: parsed =
    json.loads(text[start:end+1])`. -/
def extractParsed (env : Env) (text : String) : Except String PyVal :=
  let start := pyFind text '\x7b'
  let stop := pyRfind text '\x7d'
  if start ≠ -1 ∧ stop ≠ -1 then
    env.jsonLoads (pySlice text start.toNat (stop.toNat + 1))
  else
    .ok (vdict [])

/-- The `for idx, t in enumerate(treatment_schedule, start=1)` loop
    body: builds `pesticides` and `schedules` in input order. -/
def scheduleLoop (env : Env) : Nat → List PyVal → Except String (List PyVal × List ScheduleEntry)
  | _, [] => .ok ([], [])
  | idx, t :: rest => do
      let pname ← pyGetDefault t "product" (vstr "Unknown")
      let (ps, ss) ← scheduleLoop env (idx + 1) rest
      .ok (pname :: ps,
           ⟨pname, env.iso (env.today + (idx - 1) * 7), false⟩ :: ss)

/-- Lines 139-150: iterate `treatment_schedule` (TypeError if it is not
    iterable) building the parallel lists. -/
def buildSchedules (env : Env) (ts : PyVal) : Except String (List PyVal × List ScheduleEntry) := do
  let items ← pyIterate ts
  scheduleLoop env 1 items

/-- One `<tr>` of the schedule table (the f-string of line 155); the
    status cell is the fixed literal, not derived from `completed`. -/
def scheduleRow (s : ScheduleEntry) : String :=
  "<tr><td>" ++ pyStr s.pesticide_name ++ "</td><td>" ++ s.scheduled_date ++
  "</td><td>Not Completed</td></tr>"

/-- `html_rows = "".join([...])`. -/
def htmlRows (schedules : List ScheduleEntry) : String :=
  String.join (schedules.map scheduleRow)

/-- The fixed part of the `html_content` f-string before the first
    interpolated request field. -/
def htmlHead : String :=
  "\n<!DOCTYPE html>\n<html>\n  <head>\n    <meta charset=\x22UTF-8\x22>\n    <style>\n      body \x7b\n        font-family: Arial, sans-serif;\n        background: #f9fafb;\n        margin: 0;\n        padding: 20px;\n        color: #333;\n      \x7d\n      .container \x7b\n        max-width: 600px;\n        margin: auto;\n        background: #ffffff;\n        border-radius: 12px;\n        overflow: hidden;\n        box-shadow: 0 4px 12px rgba(0,0,0,0.1);\n      \x7d\n      .header \x7b\n        background: linear-gradient(90deg, #16a34a, #4ade80);\n        padding: 20px;\n        color: white;\n        text-align: center;\n      \x7d\n      .header h1 \x7b\n        margin: 0;\n        font-size: 22px;\n      \x7d\n      .details \x7b\n        padding: 20px;\n        font-size: 14px;\n        line-height: 1.6;\n      \x7d\n      .details strong \x7b\n        color: #16a34a;\n      \x7d\n      table \x7b\n        width: 100%;\n        border-collapse: collapse;\n        margin-top: 10px;\n      \x7d\n      table th, table td \x7b\n        border: 1px solid #e5e7eb;\n        padding: 10px;\n        text-align: left;\n      \x7d\n      table th \x7b\n        background: #f3f4f6;\n        font-size: 13px;\n        text-transform: uppercase;\n      \x7d\n      table tr:nth-child(even) \x7b\n        background: #f9fafb;\n      \x7d\n      .footer \x7b\n        text-align: center;\n        font-size: 12px;\n        color: #6b7280;\n        padding: 15px;\n        background: #f3f4f6;\n      \x7d\n    </style>\n  </head>\n  <body>\n    <div class=\x22container\x22>\n      <div class=\x22header\x22>\n        <h1>ðŸŒ± Farmcare Treatment Schedule</h1>\n      </div>\n      <div class=\x22details\x22>\n        <p><strong>Plant:</strong> "

/-- `html_content`: interpolates request fields and `html_rows` into the
    fixed template (lines 158-250). -/
def htmlContent (data : PyVal) (rows : String) : Except String String := do
  let pn ← pySubscript data "plant_name"
  let pc ← pySubscript data "predicted_class"
  let dp ← pySubscript data "disease_percentage"
  let ac ← pySubscript data "acres"
  let loc ← pySubscript data "location"
  .ok (htmlHead ++ pyStr pn ++
    "</p>\n        <p><strong>Disease:</strong> " ++ pyStr pc ++ " (" ++ pyStr dp ++
    "%)</p>\n        <p><strong>Acres:</strong> " ++ pyStr ac ++
    " | <strong>Location:</strong> " ++ pyStr loc ++
    "</p>\n        <h3>ðŸ§¾ Recommended Schedule:</h3>\n        <table>\n          <tr>\n            <th>Pesticide</th>\n            <th>Date</th>\n            <th>Status</th>\n          </tr>\n          " ++
    rows ++
    "\n        </table>\n      </div>\n      <div class=\x22footer\x22>\n        <p>ðŸ’¡ Tip: Follow this schedule carefully for best results.<br>\n        Powered by Farmcare AI Assistant.</p>\n      </div>\n    </div>\n  </body>\n</html>\n")

/-- The body of the route's try block (lines 124-266): model call, JSON
    extraction, schedule derivation, email rendering and dispatch,
    success payload. -/
def tryBody (env : Env) (data : PyVal) : Except String Outcome := do
  let prompt ← make_prompt data
  let rtext ← env.modelGen prompt
  let text := pyStrip (rtext.getD "")
  let parsed ← extractParsed env text
  let ts ← pyGetDefault parsed "treatment_schedule" (vlist [])
  let (pesticides, schedules) ← buildSchedules env ts
  let rows := htmlRows schedules
  let html ← htmlContent data rows
  let toEmail ← pySubscript data "email"
  let pn ← pySubscript data "plant_name"
  let subject := "Treatment Schedule for " ++ pyStr pn
  let emailResponse := send_email env toEmail subject html
  .ok (Outcome.ok pesticides schedules emailResponse)

/-- The `/recommend` POST handler (lines 108-269, OPTIONS branch
    excluded).  `data? = none` models `request.get_json(silent=True)`
    returning `None`. -/
def recommend (env : Env) (data? : Option PyVal) : Outcome :=
  if env.googleKey.isNone then
    Outcome.fail 500 (vstr "Missing GOOGLE_API_KEY env var")
  else
    match data? with
    | Option.none => Outcome.fail 400 (vstr "Expected JSON body")
    | some data =>
      if pyFalsy data then
        Outcome.fail 400 (vstr "Expected JSON body")
      else
        match validate_payload env.floatOk data with
        | .error e => Outcome.unhandled e
        | .ok (ok, err) =>
          if ok then
            match tryBody env data with
            | .ok out => out
            | .error e => Outcome.fail 500 (vstr e)
          else
            Outcome.fail 400 (match err with | some m => vstr m | Option.none => vnone)

/-! ### Derived definitions and concrete instances -/

/-- Name for the `t.get("product", "Unknown")` value of a mapping entry. -/
def prodName (t : List (String × PyVal)) : PyVal :=
  (dictGet t "product").getD (vstr "Unknown")

/-- The schedule the claims describe, with the 0-based position made
    explicit: the entry at 0-based position `i` (starting from offset
    `n`) is dated `today + (n + i) * 7`. -/
def schedSpecFrom (env : Env) : Nat → List (List (String × PyVal)) → List ScheduleEntry
  | _, [] => []
  | i, t :: rest =>
      ⟨prodName t, env.iso (env.today + i * 7), false⟩ :: schedSpecFrom env (i + 1) rest

/-- A concrete environment used by the witness theorems. -/
def envW : Env where
  googleKey := some "gk"
  resendKey := Option.none
  modelGen := fun _ => .ok (some "no braces here")
  jsonLoads := fun _ => .error "Expecting value: line 1 column 1 (char 0)"
  floatOk := fun _ => true
  today := 0
  iso := fun n => toString n
  emailSend := fun _ _ _ => .error "provider down"

/-- A concrete request body containing all seven required fields. -/
def dataFull : List (String × PyVal) :=
  [("plant_name", vstr "Tomato"), ("disease_percentage", vstr "12.5"),
   ("previous_fertilizers", vstr "urea"), ("acres", vstr "2"),
   ("location", vstr "Pune"), ("predicted_class", vstr "Early Blight"),
   ("email", vstr "farmer@example.com")]

/-- The prompt rendered for `dataFull`, used by witnesses. -/
def promptW : String :=
  (make_prompt (vdict dataFull)).toOption.getD ""

/-- The email HTML rendered for `dataFull` with no schedule rows, used
    by witnesses. -/
def hsW : String :=
  (htmlContent (vdict dataFull) (htmlRows [])).toOption.getD ""

/-- `envW` with a model response that does contain braces but whose
    brace-to-brace substring is not valid JSON. -/
def envB : Env :=
  { envW with modelGen := fun _ => .ok (some "x\x7bnot json\x7dy") }

/-- `envW` with a model response whose parsed JSON carries a
    `treatment_schedule` that is not a list of mappings. -/
def envC8 : Env :=
  { envW with
    modelGen := fun _ => .ok (some "\x7bx\x7d"),
    jsonLoads := fun _ => .ok (vdict [("treatment_schedule", vint 5)]) }

/-! ### Helper lemmas -/

theorem collectMissing_dict (kvs : List (String × PyVal)) (ks : List String) :
    collectMissing (vdict kvs) ks =
      .ok (ks.filter (fun k => !(dictGet kvs k).isSome)) := by
  induction ks with
  | nil => rfl
  | cons k ks ih =>
      simp only [collectMissing, pyContains, ih, List.filter_cons, Except.bind,
        bind, pure]
      cases h : (dictGet kvs k).isSome <;> simp [h]

theorem scheduleLoop_vdict (env : Env) (entries : List (List (String × PyVal))) :
    ∀ n, scheduleLoop env (n + 1) (entries.map vdict) =
      .ok (entries.map prodName, schedSpecFrom env n entries) := by
  induction entries with
  | nil => intro n; rfl
  | cons t rest ih =>
      intro n
      have hr := ih (n + 1)
      simp only [List.map_cons, scheduleLoop, pyGetDefault, hr, Except.bind, bind, pure,
        schedSpecFrom, Nat.add_sub_cancel]
      rfl

theorem schedSpecFrom_length (env : Env) (entries : List (List (String × PyVal))) :
    ∀ n, (schedSpecFrom env n entries).length = entries.length := by
  induction entries with
  | nil => intro n; rfl
  | cons t rest ih => intro n; simp [schedSpecFrom, ih]

theorem schedSpecFrom_getD (env : Env) (entries : List (List (String × PyVal))) :
    ∀ n i, i < entries.length →
      (schedSpecFrom env n entries).getD i ⟨vnone, "", true⟩ =
        ⟨prodName (entries.getD i []), env.iso (env.today + (n + i) * 7), false⟩ := by
  induction entries with
  | nil => intro n i h; simp at h
  | cons t rest ih =>
      intro n i h
      cases i with
      | zero => simp [schedSpecFrom]
      | succ j =>
          have hj : j < rest.length := by simpa using h
          have := ih (n + 1) j hj
          simp only [schedSpecFrom, List.getD_cons_succ, this]
          have : n + 1 + j = n + (j + 1) := by omega
          rw [this]

theorem schedSpecFrom_names (env : Env) (entries : List (List (String × PyVal))) :
    ∀ n, (schedSpecFrom env n entries).map (fun s => s.pesticide_name) =
      entries.map prodName := by
  induction entries with
  | nil => intro n; rfl
  | cons t rest ih => intro n; simp [schedSpecFrom, ih]

theorem validate_payload_missing (floatOk : PyVal → Bool) (kvs : List (String × PyVal))
    (hmiss : requiredKeys.filter (fun k => !(dictGet kvs k).isSome) ≠ []) :
    validate_payload floatOk (vdict kvs) =
      .ok (false, some ("Missing: " ++ String.intercalate ", "
        (requiredKeys.filter (fun k => !(dictGet kvs k).isSome)))) := by
  simp only [validate_payload, collectMissing_dict, Except.bind, bind, pure]
  rw [if_neg]
  simpa using hmiss

theorem validate_payload_ok (floatOk : PyVal → Bool) (kvs : List (String × PyVal))
    (hpres : ∀ k ∈ requiredKeys, (dictGet kvs k).isSome)
    (v1 v2 : PyVal)
    (hd : dictGet kvs "disease_percentage" = some v1)
    (ha : dictGet kvs "acres" = some v2)
    (hf1 : floatOk v1 = true) (hf2 : floatOk v2 = true) :
    validate_payload floatOk (vdict kvs) = .ok (true, Option.none) := by
  have hnil : requiredKeys.filter (fun k => !(dictGet kvs k).isSome) = [] := by
    rw [List.filter_eq_nil_iff]
    intro k hk
    simp [hpres k hk]
  simp only [validate_payload, collectMissing_dict, hnil, Except.bind, bind, pure,
    List.isEmpty_nil, if_true, pySubscript, hd, ha, hf1, hf2]
  rfl

theorem validate_payload_badfloat (floatOk : PyVal → Bool) (kvs : List (String × PyVal))
    (hpres : ∀ k ∈ requiredKeys, (dictGet kvs k).isSome)
    (v1 v2 : PyVal)
    (hd : dictGet kvs "disease_percentage" = some v1)
    (ha : dictGet kvs "acres" = some v2)
    (hbad : floatOk v1 = false ∨ floatOk v2 = false) :
    validate_payload floatOk (vdict kvs) =
      .ok (false, some "disease_percentage and acres must be numbers.") := by
  have hnil : requiredKeys.filter (fun k => !(dictGet kvs k).isSome) = [] := by
    rw [List.filter_eq_nil_iff]
    intro k hk
    simp [hpres k hk]
  simp only [validate_payload, collectMissing_dict, hnil, Except.bind, bind, pure,
    List.isEmpty_nil, if_true, pySubscript, hd, ha]
  rcases hbad with h | h <;> simp [h]

theorem dict_nonempty_of_present (kvs : List (String × PyVal))
    (hpres : ∀ k ∈ requiredKeys, (dictGet kvs k).isSome) : kvs.isEmpty = false := by
  cases kvs with
  | nil =>
      have := hpres "plant_name" (by simp [requiredKeys])
      simp [dictGet] at this
  | cons a l => rfl

/-! ### Claim theorems -/

/-- C2: for every parsed `treatment_schedule` list of mappings and
    reference date `today`, the schedule builder yields exactly one entry
    per input entry, in input order; the entry at 0-based position `i`
    (the Nth 1-indexed entry, `i = N - 1`) has `pesticide_name` equal to
    the entry's `product` value, or the literal "Unknown" when that key
    is missing, `scheduled_date` equal to `today + 7 * i` days rendered
    by `isoformat`, and `completed = false`; the `pesticides` list is the
    parallel list of exactly the pesticide names in the same order; and
    the empty input yields empty outputs rather than an error. -/
theorem claim_C2_schedule_builder (env : Env) (entries : List (List (String × PyVal))) :
    buildSchedules env (vlist (entries.map vdict)) =
      .ok (entries.map prodName, schedSpecFrom env 0 entries)
    ∧ (schedSpecFrom env 0 entries).length = entries.length
    ∧ (∀ i, i < entries.length →
        (schedSpecFrom env 0 entries).getD i ⟨vnone, "", true⟩ =
          ⟨prodName (entries.getD i []), env.iso (env.today + 7 * i), false⟩)
    ∧ (schedSpecFrom env 0 entries).map (fun s => s.pesticide_name) = entries.map prodName
    ∧ buildSchedules env (vlist []) = .ok ([], []) := by
  refine ⟨?_, schedSpecFrom_length env entries 0, ?_, schedSpecFrom_names env entries 0, rfl⟩
  · simp only [buildSchedules, pyIterate, Except.bind, bind, pure]
    exact scheduleLoop_vdict env entries 0
  · intro i hi
    have h := schedSpecFrom_getD env entries 0 i hi
    rw [h]
    simp [Nat.mul_comm]

theorem claim_C2_schedule_builder_witness :
    (1 < ([[("product", vstr "A")], []] : List (List (String × PyVal))).length)
    ∧ (schedSpecFrom envW 0 [[("product", vstr "A")], []]).getD 1 ⟨vnone, "", true⟩ =
        ⟨prodName [], envW.iso (envW.today + 7 * 1), false⟩
    ∧ buildSchedules envW (vlist [vdict [("product", vstr "A")], vdict []]) =
        .ok ([vstr "A", vstr "Unknown"], schedSpecFrom envW 0 [[("product", vstr "A")], []]) := by
  have h := claim_C2_schedule_builder envW [[("product", vstr "A")], []]
  exact ⟨by decide, h.2.2.1 1 (by decide), h.1⟩

/-- C6: if the AI-provider credential is absent, every invocation of the
    recommend operation returns the 500 configuration error naming the
    missing AI credential, whatever the request body or the behaviour of
    every collaborator — so the failure happens before validation and
    before any external call — and this response differs from the
    request-validation responses (which are 400s). -/
theorem claim_C6_missing_ai_credential (env : Env) (data? : Option PyVal) :
    recommend { env with googleKey := Option.none } data? =
      Outcome.fail 500 (vstr "Missing GOOGLE_API_KEY env var")
    ∧ Outcome.fail 500 (vstr "Missing GOOGLE_API_KEY env var") ≠
        Outcome.fail 400 (vstr "Expected JSON body") := by
  exact ⟨by simp [recommend], by simp⟩

/-- C7: the rendered rows of the email HTML consist of exactly one table
    row per schedule entry, in order, showing the entry's pesticide name,
    its scheduled date text, and the fixed literal status string
    "Not Completed"; the status cell does not depend on the entry's
    `completed` flag (replacing every flag changes nothing). -/
theorem claim_C7_email_rows (sch : List ScheduleEntry) (f : ScheduleEntry → Bool) :
    htmlRows (sch.map (fun s => ⟨s.pesticide_name, s.scheduled_date, f s⟩)) = htmlRows sch
    ∧ htmlRows sch = String.join (sch.map (fun s =>
        "<tr><td>" ++ pyStr s.pesticide_name ++ "</td><td>" ++ s.scheduled_date ++
        "</td><td>Not Completed</td></tr>"))
    ∧ (sch.map scheduleRow).length = sch.length := by
  refine ⟨?_, rfl, by simp⟩
  simp only [htmlRows, List.map_map]
  congr 1

/-- C9: the empty JSON object body (and any falsy JSON body such as the
    empty list, and an absent/non-JSON body) is answered with 400
    "Expected JSON body"; the missing-required-keys listing of all seven
    field names is never produced for such a body. -/
theorem claim_C9_falsy_body (env : Env) (g : String) :
    recommend { env with googleKey := some g } Option.none =
      Outcome.fail 400 (vstr "Expected JSON body")
    ∧ recommend { env with googleKey := some g } (some (vdict [])) =
      Outcome.fail 400 (vstr "Expected JSON body")
    ∧ recommend { env with googleKey := some g } (some (vlist [])) =
      Outcome.fail 400 (vstr "Expected JSON body")
    ∧ "Expected JSON body" ≠
        "Missing: " ++ String.intercalate ", " requiredKeys := by
  refine ⟨by simp [recommend], by simp [recommend, pyFalsy], by simp [recommend, pyFalsy],
    by decide⟩

/-- C10: in a treatment-schedule entry whose `product` key is present
    with value None, the derived `pesticide_name` is that None value,
    not the literal "Unknown"; the "Unknown" default applies only when
    the `product` key is absent from the mapping. -/
theorem claim_C10_null_product (env : Env) (kvs kvs2 : List (String × PyVal))
    (h1 : dictGet kvs "product" = some vnone)
    (h2 : dictGet kvs2 "product" = Option.none) :
    buildSchedules env (vlist [vdict kvs]) =
      .ok ([vnone], [⟨vnone, env.iso (env.today + 0 * 7), false⟩])
    ∧ buildSchedules env (vlist [vdict kvs2]) =
      .ok ([vstr "Unknown"], [⟨vstr "Unknown", env.iso (env.today + 0 * 7), false⟩])
    ∧ vnone ≠ vstr "Unknown" := by
  refine ⟨?_, ?_, by simp⟩
  · simp [buildSchedules, pyIterate, scheduleLoop, pyGetDefault, h1, Except.bind, bind, pure]
  · simp [buildSchedules, pyIterate, scheduleLoop, pyGetDefault, h2, Except.bind, bind, pure]

theorem claim_C10_null_product_witness :
    dictGet [("product", vnone)] "product" = some vnone
    ∧ dictGet [] "product" = Option.none
    ∧ buildSchedules envW (vlist [vdict [("product", vnone)]]) =
        .ok ([vnone], [⟨vnone, envW.iso (envW.today + 0 * 7), false⟩]) := by
  refine ⟨rfl, rfl, (claim_C10_null_product envW [("product", vnone)] [] rfl rfl).1⟩

/-- C3 (counterexample): the empty JSON object `{}` is missing all seven
    required keys, yet the response's error message is "Expected JSON
    body", not the comma-joined listing of the missing keys — the claim
    as stated fails on the falsy empty-object body. -/
theorem claim_C3_counterexample :
    recommend envW (some (vdict [])) = Outcome.fail 400 (vstr "Expected JSON body")
    ∧ "Expected JSON body" ≠
        "Missing: " ++ String.intercalate ", " requiredKeys := by
  exact ⟨rfl, by decide⟩

/-- C3 (amended): for every *non-empty* JSON object body missing at least
    one of the seven required keys, validation fails and the response is
    a 400 whose error message lists exactly the missing key names,
    comma-joined, in their canonical required-list order.  (The empty
    object is falsy and is instead answered "Expected JSON body".) -/
theorem claim_C3_missing_keys (env : Env) (g : String) (kvs : List (String × PyVal))
    (hne : kvs ≠ [])
    (hmiss : requiredKeys.filter (fun k => !(dictGet kvs k).isSome) ≠ []) :
    recommend { env with googleKey := some g } (some (vdict kvs)) =
      Outcome.fail 400 (vstr ("Missing: " ++ String.intercalate ", "
        (requiredKeys.filter (fun k => !(dictGet kvs k).isSome)))) := by
  have hv := validate_payload_missing env.floatOk kvs hmiss
  have hemp : kvs.isEmpty = false := by
    cases kvs with
    | nil => exact absurd rfl hne
    | cons a l => rfl
  simp [recommend, pyFalsy, hemp, hv]

theorem claim_C3_missing_keys_witness :
    ([("plant_name", vstr "Tomato")] : List (String × PyVal)) ≠ []
    ∧ requiredKeys.filter
        (fun k => !(dictGet [("plant_name", vstr "Tomato")] k).isSome) ≠ []
    ∧ recommend { envW with googleKey := some "gk" }
        (some (vdict [("plant_name", vstr "Tomato")])) =
      Outcome.fail 400 (vstr ("Missing: " ++ String.intercalate ", "
        (requiredKeys.filter
          (fun k => !(dictGet [("plant_name", vstr "Tomato")] k).isSome)))) := by
  refine ⟨by simp, by decide, claim_C3_missing_keys envW "gk" _ (by simp) (by decide)⟩

/-- C4: for every request body in which all seven required keys are
    present but `float()` fails on `disease_percentage` or on `acres`,
    the response is a 400 carrying the fixed message
    "disease_percentage and acres must be numbers." -/
theorem claim_C4_non_numeric (env : Env) (g : String) (kvs : List (String × PyVal))
    (hpres : ∀ k ∈ requiredKeys, (dictGet kvs k).isSome)
    (v1 v2 : PyVal)
    (hd : dictGet kvs "disease_percentage" = some v1)
    (ha : dictGet kvs "acres" = some v2)
    (hbad : env.floatOk v1 = false ∨ env.floatOk v2 = false) :
    recommend { env with googleKey := some g } (some (vdict kvs)) =
      Outcome.fail 400 (vstr "disease_percentage and acres must be numbers.") := by
  have hv := validate_payload_badfloat env.floatOk kvs hpres v1 v2 hd ha hbad
  have hemp := dict_nonempty_of_present kvs hpres
  simp [recommend, pyFalsy, hemp, hv]

theorem claim_C4_non_numeric_witness :
    (∀ k ∈ requiredKeys, (dictGet dataFull k).isSome)
    ∧ ({ envW with floatOk := fun _ => false } : Env).floatOk (vstr "12.5") = false
    ∧ recommend { { envW with floatOk := fun _ => false } with googleKey := some "gk" }
        (some (vdict dataFull)) =
      Outcome.fail 400 (vstr "disease_percentage and acres must be numbers.") := by
  refine ⟨by decide, rfl,
    claim_C4_non_numeric { envW with floatOk := fun _ => false } "gk" dataFull
      (by decide) (vstr "12.5") (vstr "2") rfl rfl (Or.inl rfl)⟩

/-- C1: for a valid request, if the model's (stripped) response text
    contains no "\x7b" or no "\x7d", the request is handled with the empty
    parsed structure — empty schedule, empty pesticides — and still
    returns the 200 success response; if the text contains both braces
    but `json.loads` fails on the substring from the first "\x7b" to the
    last "\x7d" inclusive, the request instead returns a 500 failure. -/
theorem claim_C1_parse_contract (env : Env) (g : String) (kvs : List (String × PyVal))
    (hpres : ∀ k ∈ requiredKeys, (dictGet kvs k).isSome)
    (v1 v2 : PyVal)
    (hd : dictGet kvs "disease_percentage" = some v1)
    (ha : dictGet kvs "acres" = some v2)
    (hf1 : env.floatOk v1 = true) (hf2 : env.floatOk v2 = true)
    (prompt : String) (hmk : make_prompt (vdict kvs) = .ok prompt)
    (rtext : Option String) (hm : env.modelGen prompt = .ok rtext)
    (text : String) (htext : text = pyStrip (rtext.getD ""))
    (ev pv : PyVal)
    (he : dictGet kvs "email" = some ev)
    (hp : dictGet kvs "plant_name" = some pv)
    (hs : String) (hh : htmlContent (vdict kvs) (htmlRows []) = .ok hs) :
    ((pyFind text '\x7b' = -1 ∨ pyRfind text '\x7d' = -1) →
      recommend { env with googleKey := some g } (some (vdict kvs)) =
        Outcome.ok [] [] (send_email { env with googleKey := some g } ev
          ("Treatment Schedule for " ++ pyStr pv) hs))
    ∧ (∀ em, pyFind text '\x7b' ≠ -1 → pyRfind text '\x7d' ≠ -1 →
        env.jsonLoads (pySlice text (pyFind text '\x7b').toNat
          ((pyRfind text '\x7d').toNat + 1)) = .error em →
        recommend { env with googleKey := some g } (some (vdict kvs)) =
          Outcome.fail 500 (vstr em)) := by
  have hemp := dict_nonempty_of_present kvs hpres
  have hv := validate_payload_ok env.floatOk kvs hpres v1 v2 hd ha hf1 hf2
  subst htext
  constructor
  · intro hbr
    have hex : extractParsed { env with googleKey := some g } (pyStrip (rtext.getD "")) =
        .ok (vdict []) := by
      simp only [extractParsed]
      rw [if_neg]
      rcases hbr with h | h <;> simp [h]
    have hge : dictGet ([] : List (String × PyVal)) "treatment_schedule" = Option.none := rfl
    simp [recommend, pyFalsy, hemp, hv, tryBody, hmk, hm, hex, pyGetDefault, hge,
      buildSchedules, pyIterate, scheduleLoop, hh, pySubscript, he, hp,
      Except.bind, bind, pure]
  · intro em h1 h2 hl
    have hex : extractParsed { env with googleKey := some g } (pyStrip (rtext.getD "")) =
        .error em := by
      simp only [extractParsed]
      rw [if_pos ⟨h1, h2⟩]
      exact hl
    simp [recommend, pyFalsy, hemp, hv, tryBody, hmk, hm, hex, Except.bind, bind, pure]

theorem claim_C1_parse_contract_witness :
    pyFind (pyStrip ((some "no braces here").getD "")) '\x7b' = -1
    ∧ recommend { envW with googleKey := some "gk" } (some (vdict dataFull)) =
        Outcome.ok [] [] (send_email { envW with googleKey := some "gk" }
          (vstr "farmer@example.com") ("Treatment Schedule for " ++ pyStr (vstr "Tomato")) hsW)
    ∧ envB.jsonLoads (pySlice (pyStrip ((some "x\x7bnot json\x7dy").getD ""))
          (pyFind (pyStrip ((some "x\x7bnot json\x7dy").getD "")) '\x7b').toNat
          ((pyRfind (pyStrip ((some "x\x7bnot json\x7dy").getD "")) '\x7d').toNat + 1)) =
        .error "Expecting value: line 1 column 1 (char 0)"
    ∧ recommend { envB with googleKey := some "gk" } (some (vdict dataFull)) =
        Outcome.fail 500 (vstr "Expecting value: line 1 column 1 (char 0)") := by
  refine ⟨by decide, ?_, rfl, ?_⟩
  · exact (claim_C1_parse_contract envW "gk" dataFull (by decide)
      (vstr "12.5") (vstr "2") rfl rfl rfl rfl
      promptW rfl (some "no braces here") rfl
      (pyStrip ((some "no braces here").getD "")) rfl
      (vstr "farmer@example.com") (vstr "Tomato") rfl rfl hsW rfl).1 (Or.inl (by decide))
  · exact (claim_C1_parse_contract envB "gk" dataFull (by decide)
      (vstr "12.5") (vstr "2") rfl rfl rfl rfl
      promptW rfl (some "x\x7bnot json\x7dy") rfl
      (pyStrip ((some "x\x7bnot json\x7dy").getD "")) rfl
      (vstr "farmer@example.com") (vstr "Tomato") rfl rfl hsW rfl).2
      "Expecting value: line 1 column 1 (char 0)" (by decide) (by decide) rfl

theorem scheduleLoop_env_congr (e1 e2 : Env) (hiso : e1.iso = e2.iso)
    (htoday : e1.today = e2.today) :
    ∀ n items, scheduleLoop e1 n items = scheduleLoop e2 n items := by
  intro n items
  induction items generalizing n with
  | nil => rfl
  | cons t rest ih => simp [scheduleLoop, hiso, htoday, ih]

theorem buildSchedules_env_congr (e1 e2 : Env) (hiso : e1.iso = e2.iso)
    (htoday : e1.today = e2.today) (ts : PyVal) :
    buildSchedules e1 ts = buildSchedules e2 ts := by
  unfold buildSchedules
  cases pyIterate ts with
  | error e => rfl
  | ok items => simp [Except.bind, bind, scheduleLoop_env_congr e1 e2 hiso htoday]

/-- C5: `send_email` never raises — if the email-provider credential is
    absent it returns the structured failure
    `{"success": false, "error": "Missing RESEND_API_KEY"}`, and a
    provider exception is caught and converted to the same
    `{"success": false, "error": str(e)}` shape; and for every request
    that reaches the email step, the overall request still returns the
    200 success response with `send_email`'s result embedded as
    `email_response`, never a 500, whatever the email configuration. -/
theorem claim_C5_email_failure (env : Env) (g : String) (to_email : PyVal)
    (subject html : String) (key em : String)
    (kvs : List (String × PyVal))
    (hpres : ∀ k ∈ requiredKeys, (dictGet kvs k).isSome)
    (v1 v2 : PyVal)
    (hd : dictGet kvs "disease_percentage" = some v1)
    (ha : dictGet kvs "acres" = some v2)
    (hf1 : env.floatOk v1 = true) (hf2 : env.floatOk v2 = true)
    (prompt : String) (hmk : make_prompt (vdict kvs) = .ok prompt)
    (rtext : Option String) (hm : env.modelGen prompt = .ok rtext)
    (text : String) (htext : text = pyStrip (rtext.getD ""))
    (parsed : PyVal) (hex : extractParsed env text = .ok parsed)
    (tsv : PyVal) (hts : pyGetDefault parsed "treatment_schedule" (vlist []) = .ok tsv)
    (ps : List PyVal) (ss : List ScheduleEntry)
    (hb : buildSchedules env tsv = .ok (ps, ss))
    (hs : String) (hh : htmlContent (vdict kvs) (htmlRows ss) = .ok hs)
    (ev pv : PyVal)
    (he : dictGet kvs "email" = some ev)
    (hp : dictGet kvs "plant_name" = some pv) :
    (env.resendKey = Option.none →
      send_email env to_email subject html =
        vdict [("success", vbool false), ("error", vstr "Missing RESEND_API_KEY")])
    ∧ (env.resendKey = some key →
        env.emailSend to_email subject html = .error em →
        send_email env to_email subject html =
          vdict [("success", vbool false), ("error", vstr em)])
    ∧ recommend { env with googleKey := some g } (some (vdict kvs)) =
        Outcome.ok ps ss (send_email { env with googleKey := some g } ev
          ("Treatment Schedule for " ++ pyStr pv) hs) := by
  refine ⟨?_, ?_, ?_⟩
  · intro hk
    simp [send_email, hk]
  · intro hk hse
    simp [send_email, hk, hse]
  · have hemp := dict_nonempty_of_present kvs hpres
    have hv := validate_payload_ok env.floatOk kvs hpres v1 v2 hd ha hf1 hf2
    subst htext
    have hex' : extractParsed { env with googleKey := some g } (pyStrip (rtext.getD "")) =
        .ok parsed := hex
    have hb' : buildSchedules { env with googleKey := some g } tsv = .ok (ps, ss) :=
      (buildSchedules_env_congr { env with googleKey := some g } env rfl rfl tsv).trans hb
    simp [recommend, pyFalsy, hemp, hv, tryBody, hmk, hm, hex', hts, hb', hh,
      pySubscript, he, hp, Except.bind, bind, pure]

theorem claim_C5_email_failure_witness :
    envW.resendKey = Option.none
    ∧ send_email envW (vstr "farmer@example.com") "subj" "html" =
        vdict [("success", vbool false), ("error", vstr "Missing RESEND_API_KEY")]
    ∧ ({ envW with resendKey := some "rk" } : Env).emailSend
        (vstr "farmer@example.com") "subj" "html" = .error "provider down"
    ∧ send_email { envW with resendKey := some "rk" }
        (vstr "farmer@example.com") "subj" "html" =
        vdict [("success", vbool false), ("error", vstr "provider down")]
    ∧ recommend { envW with googleKey := some "gk" } (some (vdict dataFull)) =
        Outcome.ok [] [] (send_email { envW with googleKey := some "gk" }
          (vstr "farmer@example.com")
          ("Treatment Schedule for " ++ pyStr (vstr "Tomato")) hsW) := by
  have h1 := claim_C5_email_failure envW "gk" (vstr "farmer@example.com") "subj" "html"
    "rk" "provider down" dataFull (by decide) (vstr "12.5") (vstr "2") rfl rfl rfl rfl
    promptW rfl (some "no braces here") rfl
    (pyStrip ((some "no braces here").getD "")) rfl
    (vdict []) rfl (vlist []) rfl [] [] rfl hsW rfl
    (vstr "farmer@example.com") (vstr "Tomato") rfl rfl
  have h2 := claim_C5_email_failure { envW with resendKey := some "rk" } "gk"
    (vstr "farmer@example.com") "subj" "html"
    "rk" "provider down" dataFull (by decide) (vstr "12.5") (vstr "2") rfl rfl rfl rfl
    promptW rfl (some "no braces here") rfl
    (pyStrip ((some "no braces here").getD "")) rfl
    (vdict []) rfl (vlist []) rfl [] [] rfl hsW rfl
    (vstr "farmer@example.com") (vstr "Tomato") rfl rfl
  exact ⟨rfl, h1.1 rfl, rfl, h2.2.1 rfl rfl, h1.2.2⟩

/-- C8 (counterexample): a well-shaped model response whose parsed JSON
    carries `treatment_schedule = 5` (not a list of mappings) does not
    degrade to an empty schedule — the schedule-derivation loop raises
    and the request fails with a 500, refuting the claim that every
    malformed or partially-shaped recommendation structure degrades to
    an empty treatment-schedule list. -/
theorem claim_C8_counterexample :
    recommend envC8 (some (vdict dataFull)) =
      Outcome.fail 500 (vstr "TypeError: object is not iterable") := by
  rfl

/-- C8 (amended): the parsing/schedule-derivation stage degrades to an
    empty treatment-schedule list when the parsed structure lacks the
    `treatment_schedule` key (and, per C1, when the model text has no
    braces at all); but a `treatment_schedule` value that is not
    iterable as a list of mappings (e.g. a number) raises instead, and
    the request then fails with a 500 rather than degrading. -/
theorem claim_C8_degrade_or_fail (env : Env) (g : String)
    (pkvs kvs : List (String × PyVal)) (n : Int)
    (hnokey : dictGet pkvs "treatment_schedule" = Option.none)
    (hpres : ∀ k ∈ requiredKeys, (dictGet kvs k).isSome)
    (v1 v2 : PyVal)
    (hd : dictGet kvs "disease_percentage" = some v1)
    (ha : dictGet kvs "acres" = some v2)
    (hf1 : env.floatOk v1 = true) (hf2 : env.floatOk v2 = true)
    (prompt : String) (hmk : make_prompt (vdict kvs) = .ok prompt)
    (rtext : Option String) (hm : env.modelGen prompt = .ok rtext)
    (text : String) (htext : text = pyStrip (rtext.getD ""))
    (parsed : PyVal) (hex : extractParsed env text = .ok parsed)
    (tsv : PyVal) (hts : pyGetDefault parsed "treatment_schedule" (vlist []) = .ok tsv)
    (emsg : String) (hbfail : buildSchedules env tsv = .error emsg) :
    ((do
        let ts ← pyGetDefault (vdict pkvs) "treatment_schedule" (vlist [])
        buildSchedules env ts) = .ok ([], []))
    ∧ buildSchedules env (vint n) = .error "TypeError: object is not iterable"
    ∧ recommend { env with googleKey := some g } (some (vdict kvs)) =
        Outcome.fail 500 (vstr emsg) := by
  refine ⟨?_, rfl, ?_⟩
  · simp [pyGetDefault, hnokey, buildSchedules, pyIterate, scheduleLoop,
      Except.bind, bind, pure]
  · have hemp := dict_nonempty_of_present kvs hpres
    have hv := validate_payload_ok env.floatOk kvs hpres v1 v2 hd ha hf1 hf2
    subst htext
    have hex' : extractParsed { env with googleKey := some g } (pyStrip (rtext.getD "")) =
        .ok parsed := hex
    have hbfail' : buildSchedules { env with googleKey := some g } tsv = .error emsg :=
      (buildSchedules_env_congr { env with googleKey := some g } env rfl rfl tsv).trans hbfail
    simp [recommend, pyFalsy, hemp, hv, tryBody, hmk, hm, hex', hts, hbfail',
      Except.bind, bind, pure]

theorem claim_C8_degrade_or_fail_witness :
    dictGet ([] : List (String × PyVal)) "treatment_schedule" = Option.none
    ∧ ((do
        let ts ← pyGetDefault (vdict ([] : List (String × PyVal)))
          "treatment_schedule" (vlist [])
        buildSchedules envC8 ts) = .ok ([], []))
    ∧ buildSchedules envC8 (vint 5) = .error "TypeError: object is not iterable"
    ∧ recommend { envC8 with googleKey := some "gk" } (some (vdict dataFull)) =
        Outcome.fail 500 (vstr "TypeError: object is not iterable") := by
  have h := claim_C8_degrade_or_fail envC8 "gk" [] dataFull 5 rfl (by decide)
    (vstr "12.5") (vstr "2") rfl rfl rfl rfl
    promptW rfl (some "\x7bx\x7d") rfl
    (pyStrip ((some "\x7bx\x7d").getD "")) rfl
    (vdict [("treatment_schedule", vint 5)]) rfl (vint 5) rfl
    "TypeError: object is not iterable" rfl
  exact ⟨rfl, h.1, h.2.1, h.2.2⟩
